import Mathlib

set_option linter.dupNamespace false

/-!
Shallow embedding of the spork CPU/memory sampling library
(`src/lib.rs`, `src/utils.rs`, `src/posix.rs`).

Machine integers are modelled as `Int`/`Nat` with explicit wrapping where
the Rust code wraps (`i64` arithmetic compiled in release mode wraps on
overflow; `wrapping_abs` and `as u64` casts are modelled exactly).

`f64` values are modelled by `F64`: a finite rational magnitude or one of
the IEEE special values NaN, plus infinity, minus infinity.  Arithmetic on
finite values is exact rational arithmetic (rounding is not modelled);
division by zero and multiplication involving special values follow IEEE
semantics.  All quantities flowing through the percentage formula are
exact in the source (integer-derived), so this models the sign/specialness
behaviour of the code faithfully.

The ambient calling-thread identity (`thread_id::get()` in the source) is
passed explicitly as a `tid : Nat` parameter, and the wall-clock reading
(`now_ms`) and the platform counter query result (`posix::get_stats`) are
passed as explicit inputs, so that the stateful poll operations become
pure state-passing functions.
-/

namespace Spork

/-- Model of IEEE `f64` values: a finite (exact) rational, NaN, or a signed
infinity. -/
inductive F64 where
  | fin (q : ℚ)
  | nan
  | inf
  | ninf
deriving DecidableEq

/-- IEEE multiplication on the `F64` model (sign of zero is not modelled;
no zero times infinity occurs on the code paths proved below). -/
def fmul : F64 → F64 → F64
  | .nan, _ => .nan
  | .fin _, .nan => .nan
  | .inf, .nan => .nan
  | .ninf, .nan => .nan
  | .fin a, .fin b => .fin (a * b)
  | .fin a, .inf => if a = 0 then .nan else if 0 < a then .inf else .ninf
  | .fin a, .ninf => if a = 0 then .nan else if 0 < a then .ninf else .inf
  | .inf, .fin b => if b = 0 then .nan else if 0 < b then .inf else .ninf
  | .inf, .inf => .inf
  | .inf, .ninf => .ninf
  | .ninf, .fin b => if b = 0 then .nan else if 0 < b then .ninf else .inf
  | .ninf, .inf => .ninf
  | .ninf, .ninf => .inf

/-- IEEE division of two finite `f64` values: exact quotient when the
divisor is nonzero, otherwise the IEEE special results 0/0 = NaN and
x/0 = a signed infinity. -/
def fdivQ (x y : ℚ) : F64 :=
  if y = 0 then
    if x = 0 then .nan else if 0 < x then .inf else .ninf
  else .fin (x / y)

/-- `StatType` from `src/lib.rs`. -/
inductive StatType where
  | Process
  | Thread
  | Children
deriving DecidableEq

/-- `Platform` from `src/lib.rs`. -/
inductive Platform where
  | Linux
  | MacOS
  | Windows
  | Unknown
deriving DecidableEq

/-- `SporkErrorKind` from `src/lib.rs`. -/
inductive SporkErrorKind where
  | InvalidStatType
  | Unimplemented
  | Unknown
deriving DecidableEq

/-- `SporkError` from `src/lib.rs`. -/
structure SporkError where
  desc : String
  details : String
  kind : SporkErrorKind
deriving DecidableEq

/-- `SporkError::new` from `src/lib.rs`. -/
def SporkError.new (kind : SporkErrorKind) (details : String) : SporkError :=
  let desc := match kind with
    | .InvalidStatType => "Invalid Stat Type"
    | .Unimplemented => "Unimplemented"
    | .Unknown => "Unknown Error"
  { desc := desc, details := details, kind := kind }

/-- `SporkError::new_borrowed` from `src/lib.rs`. -/
def SporkError.new_borrowed (kind : SporkErrorKind) (details : String) : SporkError :=
  SporkError.new kind details

/-- `Stats` from `src/lib.rs`.  `polled` is an `i64` timestamp, `duration`,
`memory`, `uptime` are `u64`, `cpu_time` is a finite `f64` (it always comes
from `get_cpu_time`, which produces an exact nonnegative rational), and
`cpu` is a full `f64` (the percentage can be NaN or infinite). -/
structure Stats where
  polled : ℤ
  duration : ℕ
  cpu_time : ℚ
  cpu : F64
  memory : ℕ
  uptime : ℕ
  kind : StatType
  cores : ℕ
deriving DecidableEq

/-- `Stats::new_empty` from `src/lib.rs`. -/
def Stats.new_empty (kind : StatType) : Stats :=
  { kind := kind, polled := 0, duration := 0, cpu_time := 0, cpu := .fin 0,
    memory := 0, uptime := 0, cores := 1 }

/-- `History` from `src/utils.rs`: one optional `Stats` for the process
scope, and maps from thread identity to the last polled `Stats` for the
thread and children scopes (the `HashMap<usize, Stats>` fields are
modelled as functions from thread ids to optional `Stats`). -/
structure History where
  process : Option Stats
  thread : ℕ → Option Stats
  children : ℕ → Option Stats

/-- `History::default` from `src/utils.rs`. -/
def History.default : History :=
  { process := none, thread := fun _ => none, children := fun _ => none }

/-- `History::get_last` from `src/utils.rs`; the calling thread's identity
(`get_thread_id()` in the source) is the explicit parameter `tid`. -/
def History.get_last (h : History) (kind : StatType) (tid : ℕ) : Option Stats :=
  match kind with
  | .Process => h.process
  | .Thread => h.thread tid
  | .Children => h.children tid

/-- `History::set_last` from `src/utils.rs`: returns the previously stored
entry and the updated store (the source mutates in place and returns the
previous entry). -/
def History.set_last (h : History) (kind : StatType) (tid : ℕ) (poll : Stats) :
    Option Stats × History :=
  let last := h.get_last kind tid
  let h2 := match kind with
    | .Process => { h with process := some poll }
    | .Thread => { h with thread := fun t => if t = tid then some poll else h.thread t }
    | .Children => { h with children := fun t => if t = tid then some poll else h.children t }
  (last, h2)

/-- `History::clear_last` from `src/utils.rs`: returns the previously
stored entry and the store with that entry removed. -/
def History.clear_last (h : History) (kind : StatType) (tid : ℕ) :
    Option Stats × History :=
  let last := h.get_last kind tid
  let h2 := match kind with
    | .Process => { h with process := none }
    | .Thread => { h with thread := fun t => if t = tid then none else h.thread t }
    | .Children => { h with children := fun t => if t = tid then none else h.children t }
  (last, h2)

/-- Reduction of an integer into the `i64` range by two's-complement
wrapping, as Rust release-mode `i64` arithmetic does on overflow. -/
def wrap64 (z : ℤ) : ℤ :=
  (z + 9223372036854775808) % 18446744073709551616 - 9223372036854775808

/-- Rust `i64::wrapping_abs`: absolute value, except that the absolute
value of `i64::MIN` wraps back to `i64::MIN`. -/
def wrapping_abs64 (z : ℤ) : ℤ :=
  if z = -9223372036854775808 then z else if z < 0 then -z else z

/-- Rust `as u64` cast of an `i64` value: two's-complement
reinterpretation. -/
def i64_as_u64 (z : ℤ) : ℕ :=
  (z % 18446744073709551616).toNat

/-- `safe_unsigned_sub` from `src/utils.rs`:
`(lhs - rhs).wrapping_abs() as u64`, with the `i64` subtraction wrapping on
overflow. -/
def safe_unsigned_sub (lhs rhs : ℤ) : ℕ :=
  i64_as_u64 (wrapping_abs64 (wrap64 (lhs - rhs)))

/-- `calc_duration` from `src/utils.rs`. -/
def calc_duration (kind : StatType) (tid : ℕ) (history : History)
    (started polled : ℤ) : ℕ :=
  let last := match history.get_last kind tid with
    | some stats => stats.polled
    | none => started
  safe_unsigned_sub last polled

/-- The reference timestamp read by `calc_duration`: the `polled` field of
the previous sample for the scope when one exists, else `started`. -/
def duration_reference (history : History) (kind : StatType) (tid : ℕ)
    (started : ℤ) : ℤ :=
  match history.get_last kind tid with
  | some stats => stats.polled
  | none => started

/-- `calc_cpu_percent` from `src/utils.rs`:
`((cpu_time_delta / duration as f64) * 1000 as f64) * 100 as f64`, with the
previous cumulative cpu time read from the history (0.0 when absent). -/
def calc_cpu_percent (history : History) (kind : StatType) (tid : ℕ)
    (curr_cpu_time : ℚ) (duration : ℕ) : F64 :=
  let prev_cpu_time := match history.get_last kind tid with
    | some stats => stats.cpu_time
    | none => 0
  let cpu_time_delta := curr_cpu_time - prev_cpu_time
  fmul (fmul (fdivQ cpu_time_delta (duration : ℚ)) (.fin 1000)) (.fin 100)

/-- The previous cumulative cpu time read by `calc_cpu_percent`. -/
def prev_cpu_time_of (history : History) (kind : StatType) (tid : ℕ) : ℚ :=
  match history.get_last kind tid with
  | some stats => stats.cpu_time
  | none => 0

/-- Modelled from the spec: the percentage contract of section 4.3,
`cpu_percent = (delta_cpu_seconds / (duration_ms / 1000)) * 100`, for a
cores factor of 1, stated over the same `f64` model. -/
def cpu_percent_spec (prev curr : ℚ) (duration : ℕ) : F64 :=
  fmul (fdivQ (curr - prev) ((duration : ℚ) / 1000)) (.fin 100)

/-- The fields of `libc::rusage` consumed by the library (`src/posix.rs`):
user and system times (seconds and microseconds, `i64` each) and
`ru_maxrss` (`i64`). -/
structure Rusage where
  ru_utime_sec : ℤ
  ru_utime_usec : ℤ
  ru_stime_sec : ℤ
  ru_stime_usec : ℤ
  ru_maxrss : ℤ
deriving DecidableEq

/-- `get_cpu_time` from `src/posix.rs`: wrapping-absolute sums of the user
and system components, cast to `u64`, combined as seconds plus
microseconds over one million, exactly as `f64` arithmetic would (all the
involved values convert exactly). -/
def get_cpu_time (val : Rusage) : ℚ :=
  let sec := i64_as_u64 (wrapping_abs64 (wrap64 (val.ru_stime_sec + val.ru_utime_sec)))
  let usec := i64_as_u64 (wrapping_abs64 (wrap64 (val.ru_stime_usec + val.ru_utime_usec)))
  (sec : ℚ) + (usec : ℚ) / 1000000

/-- `Spork` from `src/lib.rs`. -/
structure Spork where
  history : History
  platform : Platform
  clock : ℕ
  cpus : ℕ
  started : ℤ

/-- `Spork::stats` (the linux build, `src/lib.rs` lines 289-311).  The
calling thread's identity `tid`, the wall-clock reading `now` and the
outcome `osResult` of `posix::get_stats(&kind)` are explicit inputs; the
mutation of the history store is returned as the second component. -/
def Spork.stats (s : Spork) (kind : StatType) (tid : ℕ) (now : ℤ)
    (osResult : Except SporkError Rusage) : Except SporkError Stats × History :=
  let duration := calc_duration kind tid s.history s.started now
  match osResult with
  | .error e => (.error e, s.history)
  | .ok usage =>
    let cpu_time := get_cpu_time usage
    let cpu_percent := calc_cpu_percent s.history kind tid cpu_time duration
    let stats : Stats :=
      { kind := kind, polled := now, duration := duration, cpu_time := cpu_time,
        cpu := cpu_percent, memory := i64_as_u64 usage.ru_maxrss * 1000,
        uptime := safe_unsigned_sub now s.started, cores := 1 }
    (.ok stats, (s.history.set_last kind tid stats).2)

/-- `Spork::stats_with_cpus` (the linux build, `src/lib.rs` lines 363-394).
Same conventions as `Spork.stats`; the core-count check happens before the
platform counter source result is looked at. -/
def Spork.stats_with_cpus (s : Spork) (kind : StatType) (cores : Option ℕ)
    (tid : ℕ) (now : ℤ) (osResult : Except SporkError Rusage) :
    Except SporkError Stats × History :=
  let cores := match cores with
    | some c => c
    | none => s.cpus
  if cores > s.cpus then
    (.error (SporkError.new_borrowed .Unknown "Invalid CPU count."), s.history)
  else
    let duration := calc_duration kind tid s.history s.started now
    match osResult with
    | .error e => (.error e, s.history)
    | .ok usage =>
      let cpu_time := get_cpu_time usage
      let cpu_percent := calc_cpu_percent s.history kind tid cpu_time duration
      let stats : Stats :=
        { kind := kind, polled := now, duration := duration, cpu_time := cpu_time,
          cpu := cpu_percent, memory := i64_as_u64 usage.ru_maxrss * 1000,
          uptime := safe_unsigned_sub now s.started, cores := cores }
      (.ok stats, (s.history.set_last kind tid stats).2)

/-- `Spork::drop_history` from `src/lib.rs`. -/
def Spork.drop_history (s : Spork) (kind : StatType) (tid : ℕ) :
    Option Stats × History :=
  s.history.clear_last kind tid

/-- `Spork::read_history` from `src/lib.rs`. -/
def Spork.read_history (s : Spork) (kind : StatType) (tid : ℕ) : Option Stats :=
  s.history.get_last kind tid

/-- The cpu percentage carried by a poll outcome, when the poll succeeded. -/
def pollCpu (r : Except SporkError Stats × History) : Option F64 :=
  match r.1 with
  | .ok st => some st.cpu
  | .error _ => none

/-- Whether a poll outcome is an error. -/
def isErr (r : Except SporkError Stats) : Bool :=
  match r with
  | .ok _ => false
  | .error _ => true

/-- A rusage reading whose cumulative cpu time is exactly one second. -/
def ruOne : Rusage :=
  { ru_utime_sec := 0, ru_utime_usec := 0, ru_stime_sec := 1,
    ru_stime_usec := 0, ru_maxrss := 4 }

/-- A rusage reading whose cumulative cpu time is exactly half a second. -/
def ruHalf : Rusage :=
  { ru_utime_sec := 0, ru_utime_usec := 0, ru_stime_sec := 0,
    ru_stime_usec := 500000, ru_maxrss := 4 }

/-- A sample whose cumulative cpu time is 2 seconds, polled at time 0. -/
def stTwo : Stats :=
  { kind := .Process, polled := 0, duration := 0, cpu_time := 2, cpu := .fin 0,
    memory := 0, uptime := 0, cores := 1 }

/-- A history store whose process entry has cumulative cpu time 2 seconds. -/
def histTwo : History :=
  (History.default.set_last .Process 0 stTwo).2

/-- A monitor over 8 detected cores with an empty history, started at 0. -/
def spork8 : Spork :=
  { history := History.default, platform := .Linux, clock := 1000000,
    cpus := 8, started := 0 }

/-- The sample produced by polling `spork8` at time 1000 with the reading
`ruOne`: duration 1000 ms, cumulative cpu time 1 s, cpu 100%. -/
def stPoll : Stats :=
  { polled := 1000, duration := 1000, cpu_time := 1, cpu := F64.fin 100,
    memory := 4000, uptime := 1000, kind := .Process, cores := 1 }

/-- Over the full `i64` range (9223372036854775808 is `2^63`),
`safe_unsigned_sub` computes the exact absolute difference whenever that
difference is representable. -/
theorem safe_unsigned_sub_natAbs (a b : ℤ)
    (h : (a - b).natAbs < 9223372036854775808) :
    safe_unsigned_sub a b = (a - b).natAbs := by
  unfold safe_unsigned_sub i64_as_u64 wrapping_abs64 wrap64
  omega

/-- `calc_duration` is `safe_unsigned_sub` of the reference timestamp and
the poll timestamp. -/
theorem calc_duration_eq (kind : StatType) (tid : ℕ) (h : History)
    (started polled : ℤ) :
    calc_duration kind tid h started polled
      = safe_unsigned_sub (duration_reference h kind tid started) polled := rfl

/-- Scaling a finite-or-special quotient by 1000 and then 100 agrees with
dividing by `d / 1000` first and scaling by 100, over the `F64` model. -/
theorem fdiv_scale (x : ℚ) (d : ℕ) :
    fmul (fmul (fdivQ x (d : ℚ)) (.fin 1000)) (.fin 100)
      = fmul (fdivQ x ((d : ℚ) / 1000)) (.fin 100) := by
  rcases eq_or_ne (d : ℚ) 0 with hd | hd
  · rw [hd]
    rcases lt_trichotomy x 0 with hx | hx | hx
    · simp [fdivQ, fmul, hx.ne, asymm hx]
    · simp [fdivQ, fmul, hx]
    · simp [fdivQ, fmul, hx.ne', hx]
  · have hd2 : (d : ℚ) / 1000 ≠ 0 := div_ne_zero hd (by norm_num)
    simp only [fdivQ, if_neg hd, if_neg hd2, fmul]
    congr 1
    field_simp

/-- Claim C1: the code does NOT guard the zero-duration case.  With two
polls in the same millisecond (duration 0) `calc_cpu_percent` divides by
zero: a positive cpu-time delta yields plus infinity, a zero delta yields
NaN, and a full poll propagates the infinity into the returned sample's
`cpu` field, contradicting the requirement that the percentage be a
defined finite value. -/
theorem calc_cpu_percent_zero_duration_unguarded :
    calc_cpu_percent History.default .Process 0 1 0 = F64.inf
    ∧ calc_cpu_percent History.default .Process 0 0 0 = F64.nan
    ∧ pollCpu (spork8.stats .Process 0 0 (Except.ok ruOne)) = some F64.inf := by
  refine ⟨?_, ?_, ?_⟩
  · simp [calc_cpu_percent, History.default, History.get_last, fdivQ, fmul]
  · simp [calc_cpu_percent, History.default, History.get_last, fdivQ, fmul]
  · simp [Spork.stats, pollCpu, spork8, calc_duration, safe_unsigned_sub, i64_as_u64, wrap64,
      wrapping_abs64, get_cpu_time, ruOne, calc_cpu_percent, History.get_last, History.default,
      fdivQ, fmul]

/-- Claim C2, counterexample: with a fixed raw cpu-time delta of 1 s and a
fixed duration of 1000 ms over a monitor with 8 detected cores,
`stats_with_cpus` with `Some 2` returns cpu percentage 100, exactly the
percentage `stats` returns, and not 100 / 2 as the core-scaling claim
requires. -/
theorem stats_with_cpus_no_core_scaling :
    pollCpu (spork8.stats_with_cpus .Process (some 2) 0 1000 (Except.ok ruOne))
        = some (F64.fin 100)
    ∧ pollCpu (spork8.stats .Process 0 1000 (Except.ok ruOne)) = some (F64.fin 100)
    ∧ F64.fin 100 ≠ F64.fin (100 / 2) := by
  refine ⟨?_, ?_, ?_⟩
  · simp [Spork.stats_with_cpus, pollCpu, spork8, calc_duration, safe_unsigned_sub, i64_as_u64,
      wrap64, wrapping_abs64, get_cpu_time, ruOne, calc_cpu_percent, History.get_last,
      History.default, fdivQ, fmul]
  · simp [Spork.stats, pollCpu, spork8, calc_duration, safe_unsigned_sub, i64_as_u64, wrap64,
      wrapping_abs64, get_cpu_time, ruOne, calc_cpu_percent, History.get_last, History.default,
      fdivQ, fmul]
  · simp
    norm_num

/-- Claim C2, amended: the core count passed to `stats_with_cpus` does not
enter the percentage computation at all; for every valid explicit core
count `n` the cpu percentage equals the one `stats` computes (the count is
only validated and recorded in the `cores` field). -/
theorem stats_with_cpus_cpu_independent_of_cores (s : Spork) (kind : StatType)
    (tid : ℕ) (now : ℤ) (os : Except SporkError Rusage) (n : ℕ)
    (hn : n ≤ s.cpus) :
    pollCpu (s.stats_with_cpus kind (some n) tid now os)
      = pollCpu (s.stats kind tid now os) := by
  cases os <;> simp [Spork.stats_with_cpus, Spork.stats, pollCpu, not_lt.mpr hn]

/-- Witness for the amended C2 at a concrete input. -/
theorem stats_with_cpus_cpu_independent_of_cores_witness :
    pollCpu (spork8.stats_with_cpus .Process (some 2) 0 1000 (Except.ok ruOne))
      = pollCpu (spork8.stats .Process 0 1000 (Except.ok ruOne)) :=
  stats_with_cpus_cpu_independent_of_cores spork8 .Process 0 1000 (Except.ok ruOne) 2
    (by norm_num [spork8])

/-- Claim C3, counterexample: with a stored previous cumulative cpu time
of 2 s, a current reading of 1 s and a duration of 1000 ms, the computed
percentage is -100, not the claimed clamped 0. -/
theorem calc_cpu_percent_negative_on_non_monotonic :
    prev_cpu_time_of histTwo .Process 0 = 2
    ∧ calc_cpu_percent histTwo .Process 0 1 1000 = F64.fin (-100)
    ∧ F64.fin (-100) ≠ F64.fin 0 := by
  refine ⟨?_, ?_, ?_⟩
  · simp [prev_cpu_time_of, histTwo, stTwo, History.set_last, History.get_last, History.default]
  · simp [calc_cpu_percent, histTwo, stTwo, History.set_last, History.get_last, History.default,
      fdivQ, fmul]
    norm_num
  · simp

/-- Claim C3, amended: a non-monotonic reading is NOT clamped; when the
previous cumulative cpu time exceeds the current one and the duration is
positive, the computed percentage is the finite, strictly negative value
`(delta / duration) * 1000 * 100` (no panic occurs: the computation is a
total function). -/
theorem calc_cpu_percent_non_monotonic_no_clamp (h : History) (kind : StatType)
    (tid : ℕ) (curr : ℚ) (d : ℕ)
    (hprev : curr < prev_cpu_time_of h kind tid) (hd : 0 < d) :
    calc_cpu_percent h kind tid curr d
      = F64.fin ((curr - prev_cpu_time_of h kind tid) / (d : ℚ) * 1000 * 100)
    ∧ (curr - prev_cpu_time_of h kind tid) / (d : ℚ) * 1000 * 100 < 0 := by
  have hdq : (0:ℚ) < (d : ℚ) := by exact_mod_cast hd
  have hx : curr - prev_cpu_time_of h kind tid < 0 := sub_neg.mpr hprev
  constructor
  · show fmul (fmul (fdivQ (curr - prev_cpu_time_of h kind tid) (d:ℚ)) (.fin 1000)) (.fin 100) = _
    simp only [fdivQ, if_neg hdq.ne', fmul]
  · exact mul_neg_of_neg_of_pos
      (mul_neg_of_neg_of_pos (div_neg_of_neg_of_pos hx hdq) (by norm_num)) (by norm_num)

/-- Witness for the amended C3 at a concrete input. -/
theorem calc_cpu_percent_non_monotonic_no_clamp_witness :
    calc_cpu_percent histTwo .Process 0 1 1000
      = F64.fin ((1 - prev_cpu_time_of histTwo .Process 0) / (1000 : ℚ) * 1000 * 100)
    ∧ (1 - prev_cpu_time_of histTwo .Process 0) / (1000 : ℚ) * 1000 * 100 < 0 :=
  calc_cpu_percent_non_monotonic_no_clamp histTwo .Process 0 1 1000
    (by norm_num [prev_cpu_time_of, histTwo, stTwo, History.set_last, History.get_last,
      History.default])
    (by norm_num)

/-- Claim C4, counterexample: requesting 9 cores on a monitor with 8
detected cores fails, but the error kind the code produces is `Unknown`
(details "Invalid CPU count."), not an InvalidArgument-class kind: the
error enum's only argument-validation kind, `InvalidStatType`, is not
used. -/
theorem stats_with_cpus_excess_cores_unknown_kind :
    (spork8.stats_with_cpus .Process (some 9) 0 1000 (Except.ok ruOne)).1
        = Except.error (SporkError.new_borrowed .Unknown "Invalid CPU count.")
    ∧ (SporkError.new_borrowed .Unknown "Invalid CPU count.").kind
        ≠ SporkErrorKind.InvalidStatType := by
  constructor
  · simp [Spork.stats_with_cpus, spork8]
  · simp [SporkError.new_borrowed, SporkError.new]

/-- Claim C4, amended: an explicit core count exceeding the detected core
count makes `stats_with_cpus` return an error of kind `Unknown` with
details "Invalid CPU count.", leaves the history store untouched, and
produces an output independent of the platform counter source result (so
no OS reading is consulted). -/
theorem stats_with_cpus_excess_cores_rejected_early (s : Spork) (kind : StatType)
    (tid : ℕ) (now : ℤ) (os os2 : Except SporkError Rusage) (n : ℕ)
    (hn : s.cpus < n) :
    (s.stats_with_cpus kind (some n) tid now os).1
        = Except.error (SporkError.new_borrowed .Unknown "Invalid CPU count.")
    ∧ (s.stats_with_cpus kind (some n) tid now os).2 = s.history
    ∧ s.stats_with_cpus kind (some n) tid now os
        = s.stats_with_cpus kind (some n) tid now os2 := by
  refine ⟨?_, ?_, ?_⟩ <;> simp [Spork.stats_with_cpus, hn]

/-- Witness for the amended C4 at a concrete input. -/
theorem stats_with_cpus_excess_cores_rejected_early_witness :
    (spork8.stats_with_cpus .Process (some 9) 0 1000 (Except.ok ruOne)).1
        = Except.error (SporkError.new_borrowed .Unknown "Invalid CPU count.")
    ∧ (spork8.stats_with_cpus .Process (some 9) 0 1000 (Except.ok ruOne)).2 = spork8.history
    ∧ spork8.stats_with_cpus .Process (some 9) 0 1000 (Except.ok ruOne)
        = spork8.stats_with_cpus .Process (some 9) 0 1000
            (Except.error (SporkError.new .Unknown "boom")) :=
  stats_with_cpus_excess_cores_rejected_early spork8 .Process 0 1000 (Except.ok ruOne)
    (Except.error (SporkError.new .Unknown "boom")) 9 (by norm_num [spork8])

/-- Claim C5: when the platform counter query fails, `stats` returns that
very error and `stats_with_cpus` returns an error (either the propagated
one or the core-count rejection), and in every case the history store is
exactly what it was before the call. -/
theorem failed_poll_leaves_history_unchanged (s : Spork) (kind : StatType)
    (cores : Option ℕ) (tid : ℕ) (now : ℤ) (e : SporkError) :
    (s.stats kind tid now (Except.error e)).1 = Except.error e
    ∧ (s.stats kind tid now (Except.error e)).2 = s.history
    ∧ isErr (s.stats_with_cpus kind cores tid now (Except.error e)).1 = true
    ∧ (s.stats_with_cpus kind cores tid now (Except.error e)).2 = s.history := by
  refine ⟨rfl, rfl, ?_, ?_⟩ <;>
  · rcases cores with _ | c
    · simp [Spork.stats_with_cpus, isErr]
    · by_cases hc : c > s.cpus
      · simp [Spork.stats_with_cpus, isErr, hc]
      · simp [Spork.stats_with_cpus, isErr, hc]

/-- Claim C6: the duration computed for a poll, and recorded in the
returned sample, is the absolute difference between the poll timestamp and
the reference timestamp (the previous sample's `polled` when one exists,
else the monitor's `started`), whenever that difference is representable
(9223372036854775808 is `2^63`). -/
theorem poll_duration_eq_abs_diff (s : Spork) (kind : StatType) (tid : ℕ)
    (now : ℤ) (os : Rusage) (st : Stats)
    (hrep : (now - duration_reference s.history kind tid s.started).natAbs
        < 9223372036854775808)
    (hok : (s.stats kind tid now (Except.ok os)).1 = Except.ok st) :
    calc_duration kind tid s.history s.started now
        = (now - duration_reference s.history kind tid s.started).natAbs
    ∧ st.duration = (now - duration_reference s.history kind tid s.started).natAbs := by
  have hd : calc_duration kind tid s.history s.started now
      = (now - duration_reference s.history kind tid s.started).natAbs := by
    have h1 : calc_duration kind tid s.history s.started now
        = safe_unsigned_sub (duration_reference s.history kind tid s.started) now := rfl
    have h3 := safe_unsigned_sub_natAbs (duration_reference s.history kind tid s.started) now
      (by omega)
    rw [h1, h3]
    omega
  refine ⟨hd, ?_⟩
  have hst := Except.ok.inj hok
  rw [← hst]
  exact hd

/-- Witness for C6 at a concrete input. -/
theorem poll_duration_eq_abs_diff_witness :
    calc_duration .Process 0 spork8.history spork8.started 1000
        = ((1000 : ℤ) - duration_reference spork8.history .Process 0 spork8.started).natAbs
    ∧ stPoll.duration
        = ((1000 : ℤ) - duration_reference spork8.history .Process 0 spork8.started).natAbs :=
  poll_duration_eq_abs_diff spork8 .Process 0 1000 ruOne stPoll
    (by norm_num [duration_reference, spork8, History.get_last, History.default])
    (by simp [Spork.stats, spork8, calc_duration, safe_unsigned_sub, i64_as_u64, wrap64,
      wrapping_abs64, get_cpu_time, ruOne, calc_cpu_percent, History.get_last, History.default,
      fdivQ, fmul, stPoll])

/-- Claim C7: for every history state and scope, the computed percentage
equals the specification formula
`(delta_cpu_seconds / (duration_ms / 1000)) * 100` with a cores factor of
1; in particular duration 1000 ms with delta 1 s yields 100 and with delta
0.5 s yields 50. -/
theorem calc_cpu_percent_eq_spec_formula :
    (∀ (h : History) (kind : StatType) (tid : ℕ) (curr : ℚ) (d : ℕ),
        calc_cpu_percent h kind tid curr d
          = cpu_percent_spec (prev_cpu_time_of h kind tid) curr d)
    ∧ calc_cpu_percent History.default .Process 0 1 1000 = F64.fin 100
    ∧ calc_cpu_percent History.default .Process 0 (1/2) 1000 = F64.fin 50 := by
  refine ⟨?_, ?_, ?_⟩
  · intro h kind tid curr d
    exact fdiv_scale (curr - prev_cpu_time_of h kind tid) d
  · simp [calc_cpu_percent, History.default, History.get_last, fdivQ, fmul]
  · simp [calc_cpu_percent, History.default, History.get_last, fdivQ, fmul]
    norm_num

/-- Claim C8: for every scope key, the history store starts empty,
`set_last` returns the previously stored sample and fully replaces the
entry (a later `get_last` returns exactly the stored sample, a second
`set_last` wins), and `clear_last` returns the stored sample and empties
the entry. -/
theorem history_store_lifecycle (kind : StatType) (tid : ℕ) (h : History)
    (s1 s2 : Stats) :
    History.get_last History.default kind tid = none
    ∧ (h.set_last kind tid s1).1 = h.get_last kind tid
    ∧ (h.set_last kind tid s1).2.get_last kind tid = some s1
    ∧ (h.clear_last kind tid).1 = h.get_last kind tid
    ∧ (h.clear_last kind tid).2.get_last kind tid = none
    ∧ ((h.set_last kind tid s1).2.set_last kind tid s2).2.get_last kind tid = some s2 := by
  cases kind <;> simp [History.default, History.get_last, History.set_last, History.clear_last]

/-- Claim C9: a `set_last` or `clear_last` under `Thread` scope performed
by thread identity `a` leaves the entry of any distinct identity `b`
unchanged (`get_last` is read-only), so it cannot change the duration
computed for `b`'s next `Thread`-scope poll. -/
theorem thread_scope_isolation (a b : ℕ) (h : History) (s : Stats)
    (started polled : ℤ) (hab : a ≠ b) :
    (h.set_last .Thread a s).2.get_last .Thread b = h.get_last .Thread b
    ∧ (h.clear_last .Thread a).2.get_last .Thread b = h.get_last .Thread b
    ∧ calc_duration .Thread b (h.set_last .Thread a s).2 started polled
        = calc_duration .Thread b h started polled
    ∧ calc_duration .Thread b (h.clear_last .Thread a).2 started polled
        = calc_duration .Thread b h started polled := by
  have hba : b ≠ a := hab.symm
  simp [History.get_last, History.set_last, History.clear_last, calc_duration, hba]

/-- Witness for C9 at a concrete input. -/
theorem thread_scope_isolation_witness :
    (History.default.set_last .Thread 1 stTwo).2.get_last .Thread 2
        = History.default.get_last .Thread 2
    ∧ (History.default.clear_last .Thread 1).2.get_last .Thread 2
        = History.default.get_last .Thread 2
    ∧ calc_duration .Thread 2 (History.default.set_last .Thread 1 stTwo).2 3 7
        = calc_duration .Thread 2 History.default 3 7
    ∧ calc_duration .Thread 2 (History.default.clear_last .Thread 1).2 3 7
        = calc_duration .Thread 2 History.default 3 7 :=
  thread_scope_isolation 1 2 History.default stTwo 3 7 (by norm_num)

/-- Claim C10: over the `i64` range (9223372036854775808 is `2^63`),
`safe_unsigned_sub` is symmetric in its arguments; when the mathematical
difference is representable and is not `i64::MIN` the result is the exact
absolute difference, and when the difference is exactly `i64::MIN` the
result is `2^63`. -/
theorem safe_unsigned_sub_symm_and_abs (a b : ℤ)
    (_h1 : -9223372036854775808 ≤ a) (_h2 : a < 9223372036854775808)
    (_h3 : -9223372036854775808 ≤ b) (_h4 : b < 9223372036854775808) :
    safe_unsigned_sub a b = safe_unsigned_sub b a
    ∧ (-9223372036854775808 < a - b → a - b < 9223372036854775808 →
        safe_unsigned_sub a b = (a - b).natAbs)
    ∧ (a - b = -9223372036854775808 →
        safe_unsigned_sub a b = 9223372036854775808) := by
  unfold safe_unsigned_sub i64_as_u64 wrapping_abs64 wrap64
  omega

/-- Witness for C10 at concrete inputs. -/
theorem safe_unsigned_sub_symm_and_abs_witness :
    safe_unsigned_sub 100 (-50) = safe_unsigned_sub (-50) 100
    ∧ safe_unsigned_sub 100 (-50) = ((100 : ℤ) - (-50)).natAbs
    ∧ safe_unsigned_sub (-9223372036854775808) 0 = 9223372036854775808 :=
  ⟨(safe_unsigned_sub_symm_and_abs 100 (-50) (by norm_num) (by norm_num) (by norm_num)
      (by norm_num)).1,
   (safe_unsigned_sub_symm_and_abs 100 (-50) (by norm_num) (by norm_num) (by norm_num)
      (by norm_num)).2.1 (by norm_num) (by norm_num),
   (safe_unsigned_sub_symm_and_abs (-9223372036854775808) 0 (by norm_num) (by norm_num)
      (by norm_num) (by norm_num)).2.2 (by norm_num)⟩

end Spork
